import Mathlib

/-!
Shallow embedding of the planet-builder parameter/validation core
(src/parameters/PhysicalParams.js, src/parameters/CompositionParams.js,
src/utils/Constants.js).

Modelling conventions:
* JavaScript numbers that appear in inputs are modelled as rationals (ℚ);
  a field that may be absent (`undefined`) is an `Option ℚ`.
  The JavaScript truthiness test `!params.x` on a numeric field is true
  exactly when the field is absent or equal to 0, so it is modelled by
  `v = none ∨ v = some 0`.
* Real-valued formulas involving π and the natural logarithm are modelled
  over ℝ (`Real.pi`, `Real.log`), with the stored rational fields cast in.
* Error messages that are constant strings in the source are kept as the
  same strings.  Numeric interpolations (`${...}` in range messages) are
  rendered with `toString`; the exact rendering of the embedded numbers is
  immaterial to the properties proved here.
* Composition-validator errors are modelled by an inductive type `CompErr`
  mirroring the distinct `errors.push` sites, with `renderCompErr` giving
  the message text of each site.
-/

namespace PlanetBuilder

/-! ### Constants (src/utils/Constants.js) -/

def GRAVITATIONAL_CONSTANT : ℚ := 6.674e-11

structure ParamRange where
  min : ℚ
  max : ℚ
deriving DecidableEq

def massRange : ParamRange := ⟨1e20, 1e30⟩
def radiusRange : ParamRange := ⟨100, 100000⟩
def densityRange : ParamRange := ⟨500, 15000⟩
def rotationRateRange : ParamRange := ⟨0.1, 1000⟩
def axialTiltRange : ParamRange := ⟨0, 180⟩

/-! ### Physical parameters (src/parameters/PhysicalParams.js) -/

/-- The raw record handed to `validatePhysicalParams` / the constructor:
each field may be absent. -/
structure PhysInput where
  mass : Option ℚ
  radius : Option ℚ
  density : Option ℚ
  rotationRate : Option ℚ
  axialTilt : Option ℚ
deriving DecidableEq

/-- A constructed `PhysicalParameters` instance: the five stored fields. -/
structure PhysicalParameters where
  mass : ℚ
  radius : ℚ
  density : ℚ
  rotationRate : ℚ
  axialTilt : ℚ
deriving DecidableEq

/-- One block of `validatePhysicalParams` for a required positive ranged
field (mass, radius, density, rotationRate).  The JS test
`!params.x || typeof params.x !== 'number'` is true when the field is
absent or 0 (0 is falsy), hence the first two cases. -/
def checkField (name unit : String) (v : Option ℚ) (r : ParamRange) : List String :=
  match v with
  | none => [name ++ " must be a number"]
  | some x =>
    if x = 0 then [name ++ " must be a number"]
    else if x ≤ 0 then [name ++ " must be positive"]
    else if x < r.min ∨ r.max < x then
      [name ++ " must be between " ++ toString r.min ++ " and " ++ toString r.max ++ " " ++ unit]
    else []

/-- The axial-tilt block: absence is tested with `=== undefined`, so 0 is
allowed, and there is no positivity check. -/
def checkAxialTilt (v : Option ℚ) : List String :=
  match v with
  | none => ["Axial tilt must be a number"]
  | some x =>
    if x < axialTiltRange.min ∨ axialTiltRange.max < x then
      ["Axial tilt must be between 0 and 180 degrees"]
    else []

/-- Source `validatePhysicalParams` (PhysicalParams.js, lines 115–165): the ordered
list of violation messages; the source's `isValid` flag is `errors = []`. -/
def validatePhysicalParams (p : PhysInput) : List String :=
  checkField "Mass" "kg" p.mass massRange
    ++ checkField "Radius" "km" p.radius radiusRange
    ++ checkField "Density" "kg/m³" p.density densityRange
    ++ checkField "Rotation rate" "hours" p.rotationRate rotationRateRange
    ++ checkAxialTilt p.axialTilt

/-- The `PhysicalParameters` constructor: validate, throw (here: `.error`)
on any violation, otherwise store the five fields unchanged.  The `.error`
fallbacks inside the `match` are unreachable: an empty error list forces
every field to be present. -/
def constructPhysical (p : PhysInput) : Except (List String) PhysicalParameters :=
  let errs := validatePhysicalParams p
  if errs.isEmpty then
    match p.mass, p.radius, p.density, p.rotationRate, p.axialTilt with
    | some m, some r, some d, some rr, some a => .ok ⟨m, r, d, rr, a⟩
    | _, _, _, _, _ => .error errs
  else .error errs

/-- Source `calculateSurfaceGravity`: `G * mass / (radius * 1000)^2` (m/s²). -/
def calculateSurfaceGravity (p : PhysicalParameters) : ℚ :=
  GRAVITATIONAL_CONSTANT * p.mass / (p.radius * 1000) ^ 2

/-- Source `calculateVolume`: `(4/3) * π * radius³` (km³). -/
noncomputable def calculateVolume (p : PhysicalParameters) : ℝ :=
  4 / 3 * Real.pi * (p.radius : ℝ) ^ 3

/-- Source `isDensityConsistent`: relative difference between `mass / (volume in m³)`
and the stored density is at most the fixed 1% tolerance. -/
noncomputable def isDensityConsistent (p : PhysicalParameters) : Prop :=
  |(p.mass : ℝ) / (calculateVolume p * 1e9) - (p.density : ℝ)| / (p.density : ℝ) ≤ 0.01

/-! ### Physical presets (src/utils/Constants.js) -/

def EARTH : PhysInput := ⟨some 5.972e24, some 6371, some 5515, some 24, some 23.5⟩
def MARS : PhysInput := ⟨some 6.4171e23, some 3389.5, some 3934, some 24.6, some 25.2⟩
def JUPITER : PhysInput := ⟨some 1.898e27, some 69911, some 1326, some 9.9, some 3.13⟩
def MOON : PhysInput := ⟨some 7.342e22, some 1737.4, some 3344, some 655.7, some 6.68⟩

def earthParams : PhysicalParameters := ⟨5.972e24, 6371, 5515, 24, 23.5⟩
def marsParams : PhysicalParameters := ⟨6.4171e23, 3389.5, 3934, 24.6, 25.2⟩
def jupiterParams : PhysicalParameters := ⟨1.898e27, 69911, 1326, 9.9, 3.13⟩
def moonParams : PhysicalParameters := ⟨7.342e22, 1737.4, 3344, 655.7, 6.68⟩

/-! ### Composition parameters (src/parameters/CompositionParams.js)

The atmosphere composition is an open, insertion-ordered mapping from
gas-symbol strings to percentages, modelled as an association list
(`Object.entries` iterates in insertion order). -/

structure AtmosphereInput where
  composition : Option (List (String × ℚ))
  pressure : Option ℚ
  thickness : Option ℚ
deriving DecidableEq

structure WaterInput where
  coverage : Option ℚ
  depth : Option ℚ
  iceCaps : Option ℚ
deriving DecidableEq

structure SurfaceInput where
  albedo : Option ℚ
  temperature : Option ℚ
deriving DecidableEq

structure CompInput where
  atmosphere : Option AtmosphereInput
  water : Option WaterInput
  surface : Option SurfaceInput
deriving DecidableEq

/-- The distinct `errors.push` sites of `validateCompositionParams`, in
source order.  `renderCompErr` gives each site's message text. -/
inductive CompErr where
  | atmosphereRequired
  | sumError (total : ℚ)
  | gasRange (gas : String)
  | pressureRange
  | pressureRequired
  | thicknessRange
  | thicknessRequired
  | waterRequired
  | coverageRange
  | depthRange
  | iceCapsRange
  | surfaceRequired
  | albedoRange
  | temperatureRange
deriving DecidableEq

/-- Message text of each `errors.push` site (the source interpolates the
running total into the sum message with `toFixed(1)`; here it is rendered
with `toString`). -/
def renderCompErr : CompErr → String
  | .atmosphereRequired => "Atmosphere parameters are required"
  | .sumError total =>
      "Atmospheric composition must sum to 100% (currently " ++ toString total ++ "%)"
  | .gasRange gas => gas ++ " percentage must be between 0 and 100"
  | .pressureRange => "Atmospheric pressure must be between 0 and 100 atm"
  | .pressureRequired => "Atmospheric pressure is required"
  | .thicknessRange => "Atmospheric thickness must be between 0 and 1000 km"
  | .thicknessRequired => "Atmospheric thickness is required"
  | .waterRequired => "Water parameters are required"
  | .coverageRange => "Water coverage must be between 0 and 100%"
  | .depthRange => "Water depth must be between 0 and 100 km"
  | .iceCapsRange => "Ice caps must be between 0 and 100%"
  | .surfaceRequired => "Surface parameters are required"
  | .albedoRange => "Albedo must be between 0 and 1"
  | .temperatureRange => "Temperature must be between 0 and 1000 K"

/-- Source `Object.values(composition).reduce((sum, val) => sum + val, 0)`. -/
def sumComp (comp : List (String × ℚ)) : ℚ :=
  comp.foldl (fun s kv => s + kv.2) 0

/-- A JavaScript `<` comparison whose left operand may be `undefined`:
`undefined < c` is false. -/
def jsLt (v : Option ℚ) (c : ℚ) : Prop :=
  match v with
  | none => False
  | some x => x < c

instance (v : Option ℚ) (c : ℚ) : Decidable (jsLt v c) := by
  unfold jsLt; exact match v with
  | none => inferInstanceAs (Decidable False)
  | some x => inferInstanceAs (Decidable (x < c))

/-- A JavaScript `>` comparison whose left operand may be `undefined`:
`undefined > c` is false. -/
def jsGt (v : Option ℚ) (c : ℚ) : Prop :=
  match v with
  | none => False
  | some x => c < x

instance (v : Option ℚ) (c : ℚ) : Decidable (jsGt v c) := by
  unfold jsGt; exact match v with
  | none => inferInstanceAs (Decidable False)
  | some x => inferInstanceAs (Decidable (c < x))

/-- The atmosphere block of `validateCompositionParams`: sum check and
per-gas range checks (only when a composition mapping is provided —
`if (params.atmosphere.composition)`), then pressure and thickness
presence/range checks. -/
def validateAtmosphere (atm : Option AtmosphereInput) : List CompErr :=
  match atm with
  | none => [.atmosphereRequired]
  | some a =>
    (match a.composition with
     | none => []
     | some comp =>
       (if 1 < |sumComp comp - 100| then [.sumError (sumComp comp)] else [])
         ++ comp.flatMap (fun kv =>
              if kv.2 < 0 ∨ 100 < kv.2 then [.gasRange kv.1] else []))
      ++ (match a.pressure with
          | none => [.pressureRequired]
          | some p => if p < 0 ∨ 100 < p then [.pressureRange] else [])
      ++ (match a.thickness with
          | none => [.thicknessRequired]
          | some t => if t < 0 ∨ 1000 < t then [.thicknessRange] else [])

/-- The water block: the sub-field comparisons use JS `<`/`>` directly, so
an absent sub-field simply compares false and produces no error. -/
def validateWater (w : Option WaterInput) : List CompErr :=
  match w with
  | none => [.waterRequired]
  | some w =>
    (if jsLt w.coverage 0 ∨ jsGt w.coverage 100 then [.coverageRange] else [])
      ++ (if jsLt w.depth 0 ∨ jsGt w.depth 100 then [.depthRange] else [])
      ++ (if jsLt w.iceCaps 0 ∨ jsGt w.iceCaps 100 then [.iceCapsRange] else [])

/-- The surface block: same non-strict treatment of absent sub-fields. -/
def validateSurface (s : Option SurfaceInput) : List CompErr :=
  match s with
  | none => [.surfaceRequired]
  | some s =>
    (if jsLt s.albedo 0 ∨ jsGt s.albedo 1 then [.albedoRange] else [])
      ++ (if jsLt s.temperature 0 ∨ jsGt s.temperature 1000 then [.temperatureRange] else [])

/-- Source `validateCompositionParams` (CompositionParams.js, lines 204–279). -/
def validateCompositionParams (inp : CompInput) : List CompErr :=
  validateAtmosphere inp.atmosphere ++ validateWater inp.water ++ validateSurface inp.surface

/-- The default Earth-like composition substituted by the constructor when
the composition mapping is entirely omitted. -/
def defaultComposition : List (String × ℚ) :=
  [("N2", 78), ("O2", 21), ("Ar", 0.93), ("CO2", 0.04), ("other", 0.03)]

/-- A constructed `CompositionParameters` instance.  Pressure and thickness
are always present after validation; the water and surface sub-fields are
stored as given, possibly absent. -/
structure CompositionParameters where
  composition : List (String × ℚ)
  pressure : ℚ
  thickness : ℚ
  coverage : Option ℚ
  depth : Option ℚ
  iceCaps : Option ℚ
  albedo : Option ℚ
  temperature : Option ℚ
deriving DecidableEq

/-- The `CompositionParameters` constructor: validate, throw (here:
`.error`) on any violation, otherwise store, substituting the default
composition for an omitted mapping.  The `.error` fallbacks inside the
`match` are unreachable when validation succeeded. -/
def constructComposition (inp : CompInput) : Except (List CompErr) CompositionParameters :=
  let errs := validateCompositionParams inp
  if errs.isEmpty then
    match inp.atmosphere, inp.water, inp.surface with
    | some a, some w, some s =>
      match a.pressure, a.thickness with
      | some p, some t =>
          .ok ⟨a.composition.getD defaultComposition, p, t,
               w.coverage, w.depth, w.iceCaps, s.albedo, s.temperature⟩
      | _, _ => .error errs
    | _, _, _ => .error errs
  else .error errs

/-- JavaScript property access `composition[gas]` combined with `|| 0`:
the percentage of `gas`, or 0 when absent. -/
def lookupGas (comp : List (String × ℚ)) (gas : String) : ℚ :=
  ((comp.find? (fun kv => kv.1 == gas)).map Prod.snd).getD 0

/-- Source `calculateGreenhouseEffect` (CompositionParams.js, lines 99–112):
`(co2Fraction*30 + ch4Fraction*20) * ln(max(0.01, pressure))`. -/
noncomputable def calculateGreenhouseEffect (c : CompositionParameters) : ℝ :=
  ((lookupGas c.composition "CO2" / 100 * 30 + lookupGas c.composition "CH4" / 100 * 20 : ℚ) : ℝ)
    * Real.log (max 0.01 (c.pressure : ℝ))

/-- The loop body of `getDominantGas`: replace the accumulator whenever the
current percentage is strictly larger. -/
def dominantStep (acc : ℚ × String) (kv : String × ℚ) : ℚ × String :=
  if acc.1 < kv.2 then (kv.2, kv.1) else acc

/-- The `getDominantGas` loop over an arbitrary mapping: accumulator starts
at `(0, "unknown")`. -/
def dominantGasList (comp : List (String × ℚ)) : String :=
  (comp.foldl dominantStep (0, "unknown")).2

/-- Source `getDominantGas` (CompositionParams.js, lines 49–61). -/
def getDominantGas (c : CompositionParameters) : String :=
  dominantGasList c.composition

/-! ### Concrete inputs used by counterexamples and witnesses -/

/-- Earth physical values, except the stored density is 10000 kg/m³
(within its validated range, but inconsistent with mass and volume). -/
def inconsistentInput : PhysInput := ⟨some 5.972e24, some 6371, some 10000, some 24, some 23.5⟩

def inconsistentParams : PhysicalParameters := ⟨5.972e24, 6371, 10000, 24, 23.5⟩

/-- A composition input whose water and surface objects are present but
entirely empty, and whose atmosphere omits the composition mapping. -/
def sparseInput : CompInput :=
  ⟨some ⟨none, some 1, some 100⟩, some ⟨none, none, none⟩, some ⟨none, none⟩⟩

def sparseParams : CompositionParameters :=
  ⟨defaultComposition, 1, 100, none, none, none, none, none⟩

/-- A composition input whose mapping has two gases tied at 50%. -/
def tieInput : CompInput :=
  ⟨some ⟨some [("N2", 50), ("O2", 50)], some 1, some 100⟩, some ⟨some 71, some 3.7, some 3⟩,
   some ⟨some 0.3, some 288⟩⟩

def tieParams : CompositionParameters :=
  ⟨[("N2", 50), ("O2", 50)], 1, 100, some 71, some 3.7, some 3, some 0.3, some 288⟩

/-- Which block of `validateCompositionParams` an error kind is pushed by:
0 = atmosphere, 1 = water, 2 = surface. -/
def errSection : CompErr → Nat
  | .atmosphereRequired => 0
  | .sumError _ => 0
  | .gasRange _ => 0
  | .pressureRange => 0
  | .pressureRequired => 0
  | .thicknessRange => 0
  | .thicknessRequired => 0
  | .waterRequired => 1
  | .coverageRange => 1
  | .depthRange => 1
  | .iceCapsRange => 1
  | .surfaceRequired => 2
  | .albedoRange => 2
  | .temperatureRange => 2


/-! ### Sanity examples (kept as compiled checks of the embedding) -/

instance {ε α : Type} [DecidableEq ε] [DecidableEq α] : DecidableEq (Except ε α) := fun a b =>
  match a, b with
  | .ok x, .ok y => if h : x = y then .isTrue (by rw [h]) else .isFalse (by simp [h])
  | .error x, .error y => if h : x = y then .isTrue (by rw [h]) else .isFalse (by simp [h])
  | .ok _, .error _ => .isFalse (by simp)
  | .error _, .ok _ => .isFalse (by simp)

example : constructPhysical EARTH = .ok earthParams := by
  norm_num [constructPhysical, validatePhysicalParams, checkField, checkAxialTilt, EARTH,
    earthParams, massRange, radiusRange, densityRange, rotationRateRange, axialTiltRange]

example : constructPhysical ⟨some 0, some 6371, some 5515, some 24, some 23.5⟩
    = .error ["Mass must be a number"] := by
  norm_num [constructPhysical, validatePhysicalParams, checkField, checkAxialTilt,
    massRange, radiusRange, densityRange, rotationRateRange, axialTiltRange]
  decide

end PlanetBuilder

namespace PlanetBuilder

/-! ### C3: preset round-trip fidelity -/

/-- C3: constructing a PhysicalState from each of the EARTH, MARS, JUPITER
and MOON presets succeeds, and the five stored fields read back exactly the
preset's values, unchanged. -/
theorem preset_roundtrip :
    constructPhysical EARTH = .ok earthParams ∧
    constructPhysical MARS = .ok marsParams ∧
    constructPhysical JUPITER = .ok jupiterParams ∧
    constructPhysical MOON = .ok moonParams := by
  refine ⟨?_, ?_, ?_, ?_⟩ <;>
    norm_num [constructPhysical, validatePhysicalParams, checkField, checkAxialTilt,
      EARTH, MARS, JUPITER, MOON, earthParams, marsParams, jupiterParams, moonParams,
      massRange, radiusRange, densityRange, rotationRateRange, axialTiltRange]

/-! ### C4: surface gravity formula and known values -/

/-- C4: source `calculateSurfaceGravity` is `G * mass / (radius * 1000)^2` with
`G = 6.674e-11`, and on the presets: Earth within 0.1 of 9.81, Mars within
0.1 of 3.71, Moon within 0.1 of 1.62, Jupiter strictly between 20 and 30. -/
theorem surfaceGravity_spec :
    GRAVITATIONAL_CONSTANT = 6.674e-11 ∧
    (∀ p : PhysicalParameters,
        calculateSurfaceGravity p = GRAVITATIONAL_CONSTANT * p.mass / (p.radius * 1000) ^ 2) ∧
    |calculateSurfaceGravity earthParams - 9.81| ≤ 0.1 ∧
    |calculateSurfaceGravity marsParams - 3.71| ≤ 0.1 ∧
    |calculateSurfaceGravity moonParams - 1.62| ≤ 0.1 ∧
    20 < calculateSurfaceGravity jupiterParams ∧ calculateSurfaceGravity jupiterParams < 30 := by
  refine ⟨rfl, fun p => rfl, ?_, ?_, ?_, ?_, ?_⟩ <;>
    norm_num [abs_le, calculateSurfaceGravity, GRAVITATIONAL_CONSTANT,
      earthParams, marsParams, moonParams, jupiterParams]

/-! ### C8: volume formula -/

/-- C8: for every radius r stored in a PhysicalState, `calculateVolume()`
equals `(4/3) * π * r^3` exactly. -/
theorem volume_formula :
    ∀ p : PhysicalParameters, calculateVolume p = 4 / 3 * Real.pi * (p.radius : ℝ) ^ 3 :=
  fun _ => rfl

end PlanetBuilder

namespace PlanetBuilder

/-! ### C1: the message produced for a mass of 0 -/

/-- C1 counterexample: on a record whose mass field is the number 0 (all
other fields Earth-valid), `validatePhysicalParams` does NOT append
"Mass must be positive" — the JS truthiness test `!params.mass` treats 0
like an absent field, so the type-check message is appended instead. -/
theorem mass_zero_counterexample :
    "Mass must be positive" ∉
      validatePhysicalParams ⟨some 0, some 6371, some 5515, some 24, some 23.5⟩ := by
  intro h
  norm_num [validatePhysicalParams, checkField, checkAxialTilt,
    massRange, radiusRange, densityRange, rotationRateRange, axialTiltRange] at h
  revert h
  decide

/-- C1 amended: "Mass must be positive" is appended exactly for a present,
strictly negative mass; for a mass equal to 0 the truthiness test fires
first and "Mass must be a number" is appended instead. -/
theorem mass_validation_amended :
    (∀ (p : PhysInput) (m : ℚ), p.mass = some m → m < 0 →
        "Mass must be positive" ∈ validatePhysicalParams p) ∧
    (∀ p : PhysInput, p.mass = some 0 →
        "Mass must be a number" ∈ validatePhysicalParams p) := by
  constructor
  · intro p m hm hneg
    unfold validatePhysicalParams
    refine List.mem_append_left _ (List.mem_append_left _ (List.mem_append_left _
      (List.mem_append_left _ ?_)))
    simp only [checkField.eq_def, hm]
    rw [if_neg (show ¬ (m = 0) from ne_of_lt hneg), if_pos (le_of_lt hneg)]
    decide
  · intro p hm
    unfold validatePhysicalParams
    refine List.mem_append_left _ (List.mem_append_left _ (List.mem_append_left _
      (List.mem_append_left _ ?_)))
    simp only [checkField.eq_def, hm]
    rw [if_pos trivial]
    decide

/-- Witness for C1's amended theorem at concrete inputs. -/
theorem mass_validation_amended_witness :
    "Mass must be positive" ∈
      validatePhysicalParams ⟨some (-1000), some 6371, some 5515, some 24, some 23.5⟩ ∧
    "Mass must be a number" ∈
      validatePhysicalParams ⟨some 0, some 6371, some 5515, some 24, some 23.5⟩ :=
  ⟨mass_validation_amended.1 _ (-1000) rfl (by norm_num),
   mass_validation_amended.2 _ rfl⟩

end PlanetBuilder

namespace PlanetBuilder

/-! ### C2: composition-sum tolerance -/

lemma sumError_not_mem_water (w : Option WaterInput) (t : ℚ) :
    CompErr.sumError t ∉ validateWater w := by
  cases w <;> (unfold validateWater; try split_ifs) <;> simp

lemma sumError_not_mem_surface (s : Option SurfaceInput) (t : ℚ) :
    CompErr.sumError t ∉ validateSurface s := by
  cases s <;> (unfold validateSurface; try split_ifs) <;> simp

lemma sumError_not_mem_gasErrs (comp : List (String × ℚ)) (t : ℚ) :
    CompErr.sumError t ∉ comp.flatMap
      (fun kv => if kv.2 < 0 ∨ 100 < kv.2 then [CompErr.gasRange kv.1] else []) := by
  simp only [List.mem_flatMap, not_exists, not_and]
  intro kv _hkv
  split_ifs <;> simp

lemma sumError_mem_validateAtmosphere (a : AtmosphereInput) (comp : List (String × ℚ))
    (hc : a.composition = some comp) (t : ℚ) :
    (CompErr.sumError t ∈ validateAtmosphere (some a)
      ↔ t = sumComp comp ∧ 1 < |sumComp comp - 100|) := by
  simp only [validateAtmosphere, hc]
  rw [List.mem_append, List.mem_append, List.mem_append]
  constructor
  · rintro (((h | h) | h) | h)
    · revert h
      split_ifs with htol
      · simp only [List.mem_singleton, CompErr.sumError.injEq]
        intro h
        exact ⟨h, htol⟩
      · intro h
        exact absurd h (List.not_mem_nil _)
    · exact absurd h (sumError_not_mem_gasErrs comp t)
    · revert h
      cases a.pressure <;> (try split_ifs) <;> simp
    · revert h
      cases a.thickness <;> (try split_ifs) <;> simp
  · rintro ⟨rfl, htol⟩
    refine Or.inl (Or.inl (Or.inl ?_))
    rw [if_pos htol]
    simp

end PlanetBuilder

namespace PlanetBuilder

/-- C2: source `validateCompositionParams` appends no composition-sum error
whenever `|sum - 100| ≤ 1` (so sums 99, 100, 101 are accepted), and appends
the composition-sum error whenever `|sum - 100| > 1` (so a sum of 90 is
rejected). -/
theorem composition_sum_tolerance :
    (∀ (inp : CompInput) (a : AtmosphereInput) (comp : List (String × ℚ)),
        inp.atmosphere = some a → a.composition = some comp →
        |sumComp comp - 100| ≤ 1 →
        ∀ t : ℚ, CompErr.sumError t ∉ validateCompositionParams inp) ∧
    (∀ (inp : CompInput) (a : AtmosphereInput) (comp : List (String × ℚ)),
        inp.atmosphere = some a → a.composition = some comp →
        1 < |sumComp comp - 100| →
        CompErr.sumError (sumComp comp) ∈ validateCompositionParams inp) := by
  constructor
  · intro inp a comp ha hc htol t hmem
    unfold validateCompositionParams at hmem
    rw [List.mem_append, List.mem_append] at hmem
    rcases hmem with (h | h) | h
    · rw [ha, sumError_mem_validateAtmosphere a comp hc t] at h
      exact absurd h.2 (not_lt.mpr htol)
    · exact absurd h (sumError_not_mem_water _ t)
    · exact absurd h (sumError_not_mem_surface _ t)
  · intro inp a comp ha hc htol
    unfold validateCompositionParams
    rw [ha]
    exact List.mem_append_left _ (List.mem_append_left _
      ((sumError_mem_validateAtmosphere a comp hc _).mpr ⟨rfl, htol⟩))

/-- Witness for C2 at concrete compositions summing to 99, 100, 101
(accepted) and 90 (rejected). -/
theorem composition_sum_tolerance_witness :
    (∀ t : ℚ, CompErr.sumError t ∉ validateCompositionParams
        ⟨some ⟨some [("N2", 99)], some 1, some 100⟩, some ⟨some 71, some 3.7, some 3⟩,
         some ⟨some 0.3, some 288⟩⟩) ∧
    (∀ t : ℚ, CompErr.sumError t ∉ validateCompositionParams
        ⟨some ⟨some [("N2", 78), ("O2", 22)], some 1, some 100⟩, some ⟨some 71, some 3.7, some 3⟩,
         some ⟨some 0.3, some 288⟩⟩) ∧
    (∀ t : ℚ, CompErr.sumError t ∉ validateCompositionParams
        ⟨some ⟨some [("N2", 101)], some 1, some 100⟩, some ⟨some 71, some 3.7, some 3⟩,
         some ⟨some 0.3, some 288⟩⟩) ∧
    CompErr.sumError (sumComp [("N2", 90)]) ∈ validateCompositionParams
        ⟨some ⟨some [("N2", 90)], some 1, some 100⟩, some ⟨some 71, some 3.7, some 3⟩,
         some ⟨some 0.3, some 288⟩⟩ :=
  ⟨composition_sum_tolerance.1 _ _ _ rfl rfl (by norm_num [sumComp]),
   composition_sum_tolerance.1 _ _ _ rfl rfl (by norm_num [sumComp]),
   composition_sum_tolerance.1 _ _ _ rfl rfl (by norm_num [sumComp]),
   composition_sum_tolerance.2 _ _ _ rfl rfl (by norm_num [sumComp])⟩

end PlanetBuilder

namespace PlanetBuilder

/-! ### C5: greenhouse effect formula and sign behaviour -/

/-- C5: source `calculateGreenhouseEffect` is
`(CO2%/100 * 30 + CH4%/100 * 20) * ln (max 0.01 pressure)` with absent
gases read as 0 (`lookupGas`); at pressure exactly 1 atm the result is
non-negative whenever CO2 > 0 (the log factor vanishes), and at pressure
0.5 atm a positive CO2 fraction (with the non-negative CH4 fraction every
validated mapping has) makes the result strictly negative. -/
theorem greenhouse_spec :
    (∀ c : CompositionParameters,
        calculateGreenhouseEffect c =
          ((lookupGas c.composition "CO2" / 100 * 30
            + lookupGas c.composition "CH4" / 100 * 20 : ℚ) : ℝ)
            * Real.log (max 0.01 (c.pressure : ℝ))) ∧
    (∀ c : CompositionParameters, c.pressure = 1 →
        0 < lookupGas c.composition "CO2" →
        0 ≤ calculateGreenhouseEffect c) ∧
    (∀ c : CompositionParameters, c.pressure = 0.5 →
        0 < lookupGas c.composition "CO2" → 0 ≤ lookupGas c.composition "CH4" →
        calculateGreenhouseEffect c < 0) := by
  refine ⟨fun c => rfl, ?_, ?_⟩
  · intro c hp _hco2
    unfold calculateGreenhouseEffect
    rw [hp]
    rw [show ((1 : ℚ) : ℝ) = 1 by norm_num]
    rw [show max (0.01 : ℝ) 1 = 1 by norm_num, Real.log_one, mul_zero]
  · intro c hp hco2 hch4
    unfold calculateGreenhouseEffect
    rw [hp]
    rw [show ((0.5 : ℚ) : ℝ) = 0.5 by norm_num]
    rw [show max (0.01 : ℝ) 0.5 = 0.5 by norm_num]
    apply mul_neg_of_pos_of_neg
    · have hq : (0 : ℚ) < lookupGas c.composition "CO2" / 100 * 30
          + lookupGas c.composition "CH4" / 100 * 20 := by nlinarith
      exact_mod_cast hq
    · exact Real.log_neg (by norm_num) (by norm_num)

/-- Witness for C5 on concrete pure-CO2 states at pressures 1 and 0.5. -/
theorem greenhouse_spec_witness :
    0 ≤ calculateGreenhouseEffect ⟨[("CO2", 100)], 1, 100, none, none, none, none, none⟩ ∧
    calculateGreenhouseEffect ⟨[("CO2", 100)], 0.5, 100, none, none, none, none, none⟩ < 0 :=
  ⟨greenhouse_spec.2.1 _ rfl (by norm_num [lookupGas, List.find?]),
   greenhouse_spec.2.2 _ rfl (by norm_num [lookupGas, List.find?])
     (by norm_num [lookupGas, List.find?, show ("CO2" == "CH4") = false from by decide])⟩

end PlanetBuilder

namespace PlanetBuilder

/-! ### C9: numeric edge cases are guarded -/

lemma checkField_eq_nil {name unit : String} {v : Option ℚ} {r : ParamRange}
    (h : checkField name unit v r = []) :
    ∃ x, v = some x ∧ 0 < x ∧ r.min ≤ x ∧ x ≤ r.max := by
  cases v with
  | none => simp [checkField] at h
  | some x =>
    refine ⟨x, rfl, ?_⟩
    simp only [checkField] at h
    split_ifs at h with h0 hle hr
    all_goals try simp at h
    push_neg at hr
    exact ⟨not_le.mp hle, hr.1, hr.2⟩

lemma constructPhysical_ok {inp : PhysInput} {p : PhysicalParameters}
    (h : constructPhysical inp = .ok p) :
    validatePhysicalParams inp = [] ∧
      inp = ⟨some p.mass, some p.radius, some p.density, some p.rotationRate, some p.axialTilt⟩ := by
  unfold constructPhysical at h
  by_cases hemp : (validatePhysicalParams inp).isEmpty
  · rw [if_pos hemp] at h
    split at h
    · obtain rfl := Except.ok.inj h
      refine ⟨by simpa using hemp, ?_⟩
      rcases inp with ⟨om, ora, od, oro, oax⟩
      simp_all
    · exact absurd h (by simp)
  · rw [if_neg hemp] at h
    exact absurd h (by simp)

/-- C9: neither numeric-edge computation can fault on a constructed state:
the stored density of any constructed PhysicalState is strictly positive
(so `isDensityConsistent`'s divisor is never 0), and the argument
`max 0.01 pressure` of the logarithm in `calculateGreenhouseEffect` is
strictly positive for every state. -/
theorem numeric_guards :
    (∀ (inp : PhysInput) (p : PhysicalParameters),
        constructPhysical inp = .ok p → 0 < p.density) ∧
    (∀ c : CompositionParameters, (0 : ℝ) < max 0.01 (c.pressure : ℝ)) := by
  constructor
  · intro inp p h
    obtain ⟨hval, hfields⟩ := constructPhysical_ok h
    unfold validatePhysicalParams at hval
    rw [List.append_assoc, List.append_assoc, List.append_assoc,
      List.append_eq_nil, List.append_eq_nil, List.append_eq_nil] at hval
    obtain ⟨x, hx, hpos, -, -⟩ := checkField_eq_nil hval.2.2.1
    rw [hfields] at hx
    simp only at hx
    obtain rfl : p.density = x := Option.some.inj hx
    exact hpos
  · intro c
    exact lt_of_lt_of_le (by norm_num) (le_max_left 0.01 (c.pressure : ℝ))

/-- Witness for C9 on the constructed Earth preset state. -/
theorem numeric_guards_witness :
    constructPhysical EARTH = .ok earthParams ∧ 0 < earthParams.density := by
  have h : constructPhysical EARTH = .ok earthParams := by
    norm_num [constructPhysical, validatePhysicalParams, checkField, checkAxialTilt,
      EARTH, earthParams, massRange, radiusRange, densityRange, rotationRateRange, axialTiltRange]
  exact ⟨h, numeric_guards.1 _ _ h⟩

end PlanetBuilder

namespace PlanetBuilder

/-! ### C10: absent water/surface sub-fields are tolerated, absent
pressure/thickness are not -/

lemma mem_validateAtmosphere_section {a : Option AtmosphereInput} {e : CompErr}
    (h : e ∈ validateAtmosphere a) : errSection e = 0 := by
  cases a with
  | none =>
    simp [validateAtmosphere] at h
    simp [h, errSection]
  | some a =>
    simp only [validateAtmosphere, List.mem_append] at h
    rcases h with (h | h) | h
    · rcases hc : a.composition with _ | comp <;> rw [hc] at h
      · simp at h
      · rw [List.mem_append] at h
        rcases h with h | h
        · split_ifs at h <;> simp_all [errSection]
        · simp only [List.mem_flatMap] at h
          obtain ⟨kv, -, h⟩ := h
          split_ifs at h <;> simp_all [errSection]
    · rcases hp : a.pressure with _ | pv <;> rw [hp] at h
      · simp at h
        simp [h, errSection]
      · simp at h
        obtain ⟨-, rfl⟩ := h
        rfl
    · rcases ht : a.thickness with _ | tv <;> rw [ht] at h
      · simp at h
        simp [h, errSection]
      · simp at h
        obtain ⟨-, rfl⟩ := h
        rfl

lemma mem_validateWater_section {w : Option WaterInput} {e : CompErr}
    (h : e ∈ validateWater w) : errSection e = 1 := by
  cases w with
  | none =>
    simp [validateWater] at h
    simp [h, errSection]
  | some w =>
    simp [validateWater] at h
    rcases h with ⟨-, rfl⟩ | ⟨-, rfl⟩ | ⟨-, rfl⟩ <;> rfl

lemma mem_validateSurface_section {s : Option SurfaceInput} {e : CompErr}
    (h : e ∈ validateSurface s) : errSection e = 2 := by
  cases s with
  | none =>
    simp [validateSurface] at h
    simp [h, errSection]
  | some s =>
    simp [validateSurface] at h
    rcases h with ⟨-, rfl⟩ | ⟨-, rfl⟩ <;> rfl

end PlanetBuilder

namespace PlanetBuilder

lemma coverage_none_not_mem {w : WaterInput} (hc : w.coverage = none) :
    CompErr.coverageRange ∉ validateWater (some w) := by
  simp [validateWater, hc, jsLt, jsGt]

lemma depth_none_not_mem {w : WaterInput} (hc : w.depth = none) :
    CompErr.depthRange ∉ validateWater (some w) := by
  simp [validateWater, hc, jsLt, jsGt]

lemma iceCaps_none_not_mem {w : WaterInput} (hc : w.iceCaps = none) :
    CompErr.iceCapsRange ∉ validateWater (some w) := by
  simp [validateWater, hc, jsLt, jsGt]

lemma albedo_none_not_mem {s : SurfaceInput} (hc : s.albedo = none) :
    CompErr.albedoRange ∉ validateSurface (some s) := by
  simp [validateSurface, hc, jsLt, jsGt]

lemma temperature_none_not_mem {s : SurfaceInput} (hc : s.temperature = none) :
    CompErr.temperatureRange ∉ validateSurface (some s) := by
  simp [validateSurface, hc, jsLt, jsGt]

/-- C10: source `validateCompositionParams` never flags an absent water or surface
sub-field (the JS range comparisons on `undefined` are simply false), so a
CompositionState with all five sub-fields missing is constructible; by
contrast an absent `atmosphere.pressure` or `atmosphere.thickness` produces
an explicit required-field error. -/
theorem optional_subfields :
    (∀ (inp : CompInput) (w : WaterInput), inp.water = some w →
      (w.coverage = none → CompErr.coverageRange ∉ validateCompositionParams inp) ∧
      (w.depth = none → CompErr.depthRange ∉ validateCompositionParams inp) ∧
      (w.iceCaps = none → CompErr.iceCapsRange ∉ validateCompositionParams inp)) ∧
    (∀ (inp : CompInput) (s : SurfaceInput), inp.surface = some s →
      (s.albedo = none → CompErr.albedoRange ∉ validateCompositionParams inp) ∧
      (s.temperature = none → CompErr.temperatureRange ∉ validateCompositionParams inp)) ∧
    (∀ (inp : CompInput) (a : AtmosphereInput), inp.atmosphere = some a →
      (a.pressure = none →
        "Atmospheric pressure is required" ∈ (validateCompositionParams inp).map renderCompErr) ∧
      (a.thickness = none →
        "Atmospheric thickness is required" ∈ (validateCompositionParams inp).map renderCompErr)) ∧
    constructComposition sparseInput = .ok sparseParams := by
  have memCases : ∀ (inp : CompInput) (e : CompErr), e ∈ validateCompositionParams inp →
      e ∈ validateAtmosphere inp.atmosphere ∨ e ∈ validateWater inp.water ∨
        e ∈ validateSurface inp.surface := by
    intro inp e h
    unfold validateCompositionParams at h
    rw [List.mem_append, List.mem_append] at h
    tauto
  refine ⟨?_, ?_, ?_, ?_⟩
  · intro inp w hw
    refine ⟨fun hc h => ?_, fun hc h => ?_, fun hc h => ?_⟩ <;>
      rcases memCases inp _ h with h | h | h <;>
      rw [hw] at * <;>
      first
        | exact absurd (mem_validateAtmosphere_section h) (by simp [errSection])
        | exact absurd (mem_validateSurface_section h) (by simp [errSection])
        | exact absurd h (coverage_none_not_mem hc)
        | exact absurd h (depth_none_not_mem hc)
        | exact absurd h (iceCaps_none_not_mem hc)
  · intro inp s hs
    refine ⟨fun hc h => ?_, fun hc h => ?_⟩ <;>
      rcases memCases inp _ h with h | h | h <;>
      rw [hs] at * <;>
      first
        | exact absurd (mem_validateAtmosphere_section h) (by simp [errSection])
        | exact absurd (mem_validateWater_section h) (by simp [errSection])
        | exact absurd h (albedo_none_not_mem hc)
        | exact absurd h (temperature_none_not_mem hc)
  · intro inp a ha
    constructor
    · intro hp
      have hmem : CompErr.pressureRequired ∈ validateCompositionParams inp := by
        unfold validateCompositionParams
        rw [ha]
        refine List.mem_append_left _ (List.mem_append_left _ ?_)
        simp only [validateAtmosphere]
        refine List.mem_append_left _ (List.mem_append_right _ ?_)
        rw [hp]
        simp
      exact List.mem_map_of_mem renderCompErr hmem
    · intro ht
      have hmem : CompErr.thicknessRequired ∈ validateCompositionParams inp := by
        unfold validateCompositionParams
        rw [ha]
        refine List.mem_append_left _ (List.mem_append_left _ ?_)
        simp only [validateAtmosphere]
        refine List.mem_append_right _ ?_
        rw [ht]
        simp
      exact List.mem_map_of_mem renderCompErr hmem
  · norm_num [constructComposition, validateCompositionParams, validateAtmosphere,
      validateWater, validateSurface, jsLt, jsGt, sparseInput, sparseParams]

/-- Witness for C10 at concrete inputs: the sparse input (empty water and
surface objects) produces none of the five sub-field errors, and an input
missing pressure and thickness produces both required-field messages. -/
theorem optional_subfields_witness :
    (CompErr.coverageRange ∉ validateCompositionParams sparseInput ∧
     CompErr.depthRange ∉ validateCompositionParams sparseInput ∧
     CompErr.iceCapsRange ∉ validateCompositionParams sparseInput ∧
     CompErr.albedoRange ∉ validateCompositionParams sparseInput ∧
     CompErr.temperatureRange ∉ validateCompositionParams sparseInput) ∧
    ("Atmospheric pressure is required" ∈
      (validateCompositionParams
        ⟨some ⟨none, none, none⟩, some ⟨none, none, none⟩, some ⟨none, none⟩⟩).map renderCompErr ∧
     "Atmospheric thickness is required" ∈
      (validateCompositionParams
        ⟨some ⟨none, none, none⟩, some ⟨none, none, none⟩, some ⟨none, none⟩⟩).map renderCompErr) :=
  ⟨⟨(optional_subfields.1 sparseInput _ rfl).1 rfl,
    (optional_subfields.1 sparseInput _ rfl).2.1 rfl,
    (optional_subfields.1 sparseInput _ rfl).2.2 rfl,
    (optional_subfields.2.1 sparseInput _ rfl).1 rfl,
    (optional_subfields.2.1 sparseInput _ rfl).2 rfl⟩,
   ⟨(optional_subfields.2.2.1 _ _ rfl).1 rfl,
    (optional_subfields.2.2.1 _ _ rfl).2 rfl⟩⟩

end PlanetBuilder

namespace PlanetBuilder

/-! ### C6: density consistency is a diagnostic, not an invariant -/

lemma earth_ratio_lb :
    (5459.85 : ℝ) ≤ 5.972e24 / (4 / 3 * Real.pi * (6371 : ℝ) ^ 3 * 1e9) := by
  have hpi2 : Real.pi < 3.15 := Real.pi_lt_d2
  have hVpos : (0 : ℝ) < 4 / 3 * Real.pi * (6371 : ℝ) ^ 3 * 1e9 := by positivity
  rw [le_div_iff hVpos]
  calc (5459.85 : ℝ) * (4 / 3 * Real.pi * (6371 : ℝ) ^ 3 * 1e9)
      ≤ 5459.85 * (4 / 3 * 3.15 * (6371 : ℝ) ^ 3 * 1e9) := by gcongr
    _ ≤ 5.972e24 := by norm_num

lemma earth_ratio_ub :
    5.972e24 / (4 / 3 * Real.pi * (6371 : ℝ) ^ 3 * 1e9) ≤ (5570.15 : ℝ) := by
  have hpi1 : (3.14 : ℝ) < Real.pi := Real.pi_gt_d2
  have hVpos : (0 : ℝ) < 4 / 3 * Real.pi * (6371 : ℝ) ^ 3 * 1e9 := by positivity
  rw [div_le_iff hVpos]
  calc (5.972e24 : ℝ) ≤ 5570.15 * (4 / 3 * 3.14 * (6371 : ℝ) ^ 3 * 1e9) := by norm_num
    _ ≤ 5570.15 * (4 / 3 * Real.pi * (6371 : ℝ) ^ 3 * 1e9) := by gcongr

/-- C6: source `isDensityConsistent` is exactly the 1%-relative-difference test
against `mass / (volume * 1e9)`; it is not enforced at construction (the
Earth-sized state with stored density 10000 is constructible yet
inconsistent); and the Earth preset itself reports consistent. -/
theorem density_consistency_spec :
    (∀ p : PhysicalParameters, isDensityConsistent p ↔
        |(p.mass : ℝ) / (calculateVolume p * 1e9) - (p.density : ℝ)| / (p.density : ℝ) ≤ 0.01) ∧
    (constructPhysical inconsistentInput = .ok inconsistentParams ∧
      ¬ isDensityConsistent inconsistentParams) ∧
    isDensityConsistent earthParams := by
  refine ⟨fun p => Iff.rfl, ⟨?_, ?_⟩, ?_⟩
  · norm_num [constructPhysical, validatePhysicalParams, checkField, checkAxialTilt,
      inconsistentInput, inconsistentParams, massRange, radiusRange, densityRange,
      rotationRateRange, axialTiltRange]
  · simp only [isDensityConsistent, calculateVolume, inconsistentParams]
    push_cast
    intro hcon
    have h2 := earth_ratio_ub
    have hneg : 5.972e24 / (4 / 3 * Real.pi * (6371 : ℝ) ^ 3 * 1e9) - 10000 < 0 := by
      linarith
    rw [div_le_iff (by norm_num : (0 : ℝ) < 10000), abs_of_neg hneg] at hcon
    linarith
  · simp only [isDensityConsistent, calculateVolume, earthParams]
    push_cast
    have h1 := earth_ratio_lb
    have h2 := earth_ratio_ub
    rw [div_le_iff (by norm_num : (0 : ℝ) < 5515), abs_le]
    constructor <;> linarith

end PlanetBuilder

namespace PlanetBuilder

/-! ### C7: dominant gas -/

lemma foldl_dominant_const (l : List (String × ℚ)) (acc : ℚ × String)
    (h : ∀ kv ∈ l, kv.2 ≤ acc.1) : l.foldl dominantStep acc = acc := by
  induction l with
  | nil => rfl
  | cons x t ih =>
    rw [List.foldl_cons]
    have hx : x.2 ≤ acc.1 := h x (List.mem_cons_self x t)
    rw [show dominantStep acc x = acc by unfold dominantStep; rw [if_neg (not_lt.mpr hx)]]
    exact ih (fun kv hkv => h kv (List.mem_cons_of_mem x hkv))

lemma foldl_dominant_first :
    ∀ (l : List (String × ℚ)) (acc : ℚ × String) (i : ℕ) (hi : i < l.length),
      acc.1 < (l.get ⟨i, hi⟩).2 →
      (∀ (j : ℕ) (hj : j < l.length), (l.get ⟨j, hj⟩).2 ≤ (l.get ⟨i, hi⟩).2) →
      (∀ (j : ℕ) (hj : j < l.length), j < i → (l.get ⟨j, hj⟩).2 < (l.get ⟨i, hi⟩).2) →
      (l.foldl dominantStep acc).2 = (l.get ⟨i, hi⟩).1 := by
  intro l
  induction l with
  | nil => intro acc i hi; exact absurd hi (Nat.not_lt_zero i)
  | cons x t ih =>
    intro acc i hi hacc hmax hfirst
    rw [List.foldl_cons]
    cases i with
    | zero =>
      have hacc0 : acc.1 < x.2 := hacc
      rw [show dominantStep acc x = (x.2, x.1) by unfold dominantStep; rw [if_pos hacc0]]
      have hrest : ∀ kv ∈ t, kv.2 ≤ x.2 := by
        intro kv hkv
        obtain ⟨⟨j, hj⟩, rfl⟩ := List.mem_iff_get.mp hkv
        exact hmax (j + 1) (Nat.succ_lt_succ hj)
      rw [foldl_dominant_const t (x.2, x.1) hrest]
      rfl
    | succ k =>
      have hik : k < t.length := Nat.lt_of_succ_lt_succ hi
      have hacc' : acc.1 < (t.get ⟨k, hik⟩).2 := hacc
      have hx : x.2 < (t.get ⟨k, hik⟩).2 :=
        hfirst 0 (Nat.succ_pos t.length) (Nat.succ_pos k)
      refine ih (dominantStep acc x) k hik ?_
        (fun j hj => hmax (j + 1) (Nat.succ_lt_succ hj))
        (fun j hj hjk => hfirst (j + 1) (Nat.succ_lt_succ hj) (Nat.succ_lt_succ hjk))
      unfold dominantStep
      split_ifs
      · exact hx
      · exact hacc'

lemma foldl_add_le (l : List (String × ℚ)) :
    ∀ s : ℚ, (∀ kv ∈ l, kv.2 ≤ 0) → l.foldl (fun s kv => s + kv.2) s ≤ s := by
  induction l with
  | nil => intro s _; exact le_refl s
  | cons x t ih =>
    intro s h
    rw [List.foldl_cons]
    have hx : x.2 ≤ 0 := h x (List.mem_cons_self x t)
    calc t.foldl (fun s kv => s + kv.2) (s + x.2) ≤ s + x.2 :=
          ih (s + x.2) (fun kv hkv => h kv (List.mem_cons_of_mem x hkv))
      _ ≤ s := by linarith

lemma exists_pos_of_sumComp_pos {l : List (String × ℚ)} (h : 0 < sumComp l) :
    ∃ kv ∈ l, 0 < kv.2 := by
  by_contra hc
  push_neg at hc
  have hle := foldl_add_le l 0 hc
  unfold sumComp at h
  linarith

lemma constructComposition_ok {inp : CompInput} {c : CompositionParameters}
    (h : constructComposition inp = .ok c) :
    validateCompositionParams inp = [] ∧
      ∃ a, inp.atmosphere = some a ∧ c.composition = a.composition.getD defaultComposition := by
  unfold constructComposition at h
  by_cases hemp : (validateCompositionParams inp).isEmpty
  · rw [if_pos hemp] at h
    split at h
    · rename_i a w s ha hw hs
      split at h
      · rename_i p t hp ht
        obtain rfl := Except.ok.inj h
        exact ⟨by simpa using hemp, a, ha, rfl⟩
      · exact absurd h (by simp)
    · exact absurd h (by simp)
  · rw [if_neg hemp] at h
    exact absurd h (by simp)

lemma stored_composition_pos {inp : CompInput} {c : CompositionParameters}
    (h : constructComposition inp = .ok c) : ∃ kv ∈ c.composition, 0 < kv.2 := by
  obtain ⟨hval, a, ha, hcomp⟩ := constructComposition_ok h
  rcases hc : a.composition with _ | comp
  · rw [hcomp, hc]
    exact ⟨("N2", 78), by simp [defaultComposition], by norm_num⟩
  · rw [hcomp, hc, Option.getD_some]
    have hnot : CompErr.sumError (sumComp comp) ∉ validateCompositionParams inp := by
      rw [hval]; simp
    have hsum : ¬ 1 < |sumComp comp - 100| := by
      intro habs
      apply hnot
      unfold validateCompositionParams
      rw [ha]
      exact List.mem_append_left _ (List.mem_append_left _
        ((sumError_mem_validateAtmosphere a comp hc _).mpr ⟨rfl, habs⟩))
    push_neg at hsum
    have hpos : 0 < sumComp comp := by
      have hb := abs_le.mp hsum
      linarith [hb.1]
    exact exists_pos_of_sumComp_pos hpos

/-- C7: source `getDominantGas` returns the key holding the strictly largest
percentage, resolving ties to the earliest key in insertion order (the
first index at which the maximum is attained); on the empty mapping the
loop returns the "unknown" sentinel; and every constructed state's mapping
has a strictly positive entry, so the sentinel never masks a real key. -/
theorem dominantGas_spec :
    dominantGasList [] = "unknown" ∧
    (∀ (inp : CompInput) (c : CompositionParameters), constructComposition inp = .ok c →
      (∃ kv ∈ c.composition, 0 < kv.2) ∧
      ∀ (i : ℕ) (hi : i < c.composition.length),
        (∀ (j : ℕ) (hj : j < c.composition.length),
            (c.composition.get ⟨j, hj⟩).2 ≤ (c.composition.get ⟨i, hi⟩).2) →
        (∀ (j : ℕ) (hj : j < c.composition.length), j < i →
            (c.composition.get ⟨j, hj⟩).2 < (c.composition.get ⟨i, hi⟩).2) →
        getDominantGas c = (c.composition.get ⟨i, hi⟩).1) ∧
    dominantGasList [("N2", 50), ("O2", 50)] = "N2" := by
  refine ⟨rfl, ?_, ?_⟩
  · intro inp c h
    refine ⟨stored_composition_pos h, ?_⟩
    intro i hi hmax hfirst
    obtain ⟨kv, hkv, hpos⟩ := stored_composition_pos h
    obtain ⟨⟨j, hj⟩, rfl⟩ := List.mem_iff_get.mp hkv
    have hvi : (0 : ℚ) < (c.composition.get ⟨i, hi⟩).2 := lt_of_lt_of_le hpos (hmax j hj)
    exact foldl_dominant_first c.composition (0, "unknown") i hi hvi hmax hfirst
  · norm_num [dominantGasList, dominantStep]

/-- Witness for C7 on a constructed state whose mapping is
`{N2: 50, O2: 50}`: the tie resolves to the first key. -/
theorem dominantGas_spec_witness :
    constructComposition tieInput = .ok tieParams ∧ getDominantGas tieParams = "N2" := by
  have hc : constructComposition tieInput = .ok tieParams := by
    norm_num [constructComposition, validateCompositionParams, validateAtmosphere, validateWater,
      validateSurface, jsLt, jsGt, sumComp, tieInput, tieParams]
  refine ⟨hc, ?_⟩
  have hres := (dominantGas_spec.2.1 tieInput tieParams hc).2 0 (by norm_num [tieParams])
    (?_) (fun j hj h0 => absurd h0 (Nat.not_lt_zero j))
  · simpa [tieParams] using hres
  · intro j hj
    have hj2 : j < 2 := by simpa [tieParams] using hj
    interval_cases j <;> norm_num [tieParams]

end PlanetBuilder
